import Mathlib

/-!
Verification of the `ColorThreshUtil` color-thresholding engine
(`ColorThreshUtil.py` / `colorthresh.py`) against its specification.

The embedding models the `ColorThreshold` class: its configuration state
(current color-space index and six channel bounds), the trackbar callback
`onTrackbar`, the mouse-driven color-space cycling in `onMouse`, the
per-frame `thresholdImage` computation, and the `__main__` argument
dispatch.  OpenCV primitives that the code calls (`cv2.inRange`,
`cv2.split`, `cv2.bitwise_and`, Python's `%` on ints) are modelled by
their documented pixel-wise semantics; the color conversions performed by
`cv2.cvtColor` are kept abstract (arbitrary functions), since no claim
depends on their concrete values.
-/

namespace ColorThresh

/-- The ordered list of color-space names, from `CV_COLOR_CODES` /
`COLOR_SPACES` in `__init__`. -/
def COLOR_SPACES : List String :=
  ["BGR", "GRAY", "HSV", "Lab", "Luv", "YCrCb", "YUV"]

/-- One 3-channel 8-bit pixel (channel 0, channel 1, channel 2). -/
abbrev Pixel3 := Nat × Nat × Nat

/-- A frame as the list of its pixels (pixel-wise operations only). -/
abbrev Frame := List Pixel3

/-- The mutable state of a `ColorThreshold` instance that the claims are
about: `colorSpaceIdx` and the six channel bounds set in `__init__`. -/
structure Config where
  colorSpaceIdx : Int
  ch0LowVal : Nat
  ch0HighVal : Nat
  ch1LowVal : Nat
  ch1HighVal : Nat
  ch2LowVal : Nat
  ch2HighVal : Nat
deriving Repr, DecidableEq

/-- `PIXEL_MIN` from `__init__`. -/
def PIXEL_MIN : Nat := 0

/-- `PIXEL_MAX` from `__init__`. -/
def PIXEL_MAX : Nat := 255

/-- The state built by `__init__`: index 0, all low bounds `PIXEL_MIN`,
all high bounds `PIXEL_MAX`. -/
def initialConfig : Config :=
  { colorSpaceIdx := 0
    ch0LowVal := PIXEL_MIN, ch0HighVal := PIXEL_MAX
    ch1LowVal := PIXEL_MIN, ch1HighVal := PIXEL_MAX
    ch2LowVal := PIXEL_MIN, ch2HighVal := PIXEL_MAX }

/-- `cv2.inRange` on a single 8-bit channel value: 255 when
`low ≤ v ≤ high` (inclusive at both ends, per OpenCV's documented
semantics), otherwise 0. -/
def inRange1 (low high v : Nat) : Nat :=
  if low ≤ v ∧ v ≤ high then 255 else 0

/-- `cv2.bitwise_and` on two 8-bit values. -/
def bitwiseAnd (a b : Nat) : Nat := Nat.land a b

/-- The converted frame produced by `thresholdImage`: single-channel
after `cv2.COLOR_BGR2GRAY`, 3-channel otherwise. -/
inductive ConvFrame where
  | gray (g : List Nat)
  | color (c : Frame)
deriving Repr, DecidableEq

/-- One per-channel mask plane: `cv2.inRange(channels[n], low, high)`
applied to the projection of each pixel onto channel slot `n`. -/
def channelMask (low high : Nat) (proj : Pixel3 → Nat) (img : Frame) :
    List Nat :=
  img.map (fun p => inRange1 low high (proj p))

/-- The 3-channel converted frame (`thresh` before splitting) in the
non-"GRAY" branch of `thresholdImage`: a copy of the image for "BGR",
otherwise `cv2.cvtColor` with the entry's code. -/
def convertedOf (cvt : String → Pixel3 → Pixel3) (cfg : Config)
    (img : Frame) : Frame :=
  let colorSpaceName := COLOR_SPACES.getD cfg.colorSpaceIdx.toNat ""
  if colorSpaceName = "BGR" then img else img.map (cvt colorSpaceName)

/-- `ColorThreshold.thresholdImage`, as a function of the configuration
and the current image.  `cvtGray` models `cv2.cvtColor(·, COLOR_BGR2GRAY)`
and `cvt name` models `cv2.cvtColor` for the other non-"BGR" entries;
both are arbitrary pixel-wise conversions.  Returns the converted frame
(shown in the image window) and the combined mask (shown in the
thresholded window). -/
def thresholdImage (cvtGray : Pixel3 → Nat) (cvt : String → Pixel3 → Pixel3)
    (cfg : Config) (img : Frame) : ConvFrame × List Nat :=
  let colorSpaceName := COLOR_SPACES.getD cfg.colorSpaceIdx.toNat ""
  if colorSpaceName = "GRAY" then
    let g := img.map cvtGray
    (ConvFrame.gray g, g.map (inRange1 cfg.ch0LowVal cfg.ch0HighVal))
  else
    let thresh := convertedOf cvt cfg img
    let m0 := channelMask cfg.ch0LowVal cfg.ch0HighVal (fun p => p.1) thresh
    let m1 := channelMask cfg.ch1LowVal cfg.ch1HighVal (fun p => p.2.1) thresh
    let m2 := channelMask cfg.ch2LowVal cfg.ch2HighVal (fun p => p.2.2) thresh
    (ConvFrame.color thresh,
      List.zipWith bitwiseAnd (List.zipWith bitwiseAnd m0 m1) m2)

/-- `processFrame` as a state-passing step: `thresholdImage` reads the
configuration and the current image but assigns no instance field, so the
state passes through unchanged and the two display images are the
output. -/
def thresholdImageStep (cvtGray : Pixel3 → Nat)
    (cvt : String → Pixel3 → Pixel3) (cfg : Config) (img : Frame) :
    (Config × Frame) × (ConvFrame × List Nat) :=
  ((cfg, img), thresholdImage cvtGray cvt cfg img)

/-- The color-space cycling step from `ColorThreshold.onMouse`:
`(colorSpaceIdx + increment) % len(COLOR_SPACES)`.  `Int.emod` matches
Python's `%`: the result is non-negative for a positive modulus. -/
def cycleColorSpace (idx increment : Int) : Int :=
  (idx + increment) % (COLOR_SPACES.length : Int)

/-- The six trackbar positions reported by `cv2.getTrackbarPos` at the
moment the callback runs. -/
structure SliderState where
  ch0Low : Nat
  ch0High : Nat
  ch1Low : Nat
  ch1High : Nat
  ch2Low : Nat
  ch2High : Nat
deriving Repr, DecidableEq

/-- `ColorThreshold.onTrackbar`: the callback ignores its `val` argument
and overwrites all six bounds from the queried trackbar positions; the
color-space index is untouched.  (The `mode == "image"` re-threshold does
not change the configuration.) -/
def onTrackbar (val : Nat) (s : SliderState) (cfg : Config) : Config :=
  let _ := val
  { cfg with
    ch0LowVal := s.ch0Low, ch0HighVal := s.ch0High
    ch1LowVal := s.ch1Low, ch1HighVal := s.ch1High
    ch2LowVal := s.ch2Low, ch2HighVal := s.ch2High }

/-- Applying a sequence of `onMouse` cycle increments to an index. -/
def applyCycles : List Int → Int → Int
  | [], idx => idx
  | d :: ds, idx => applyCycles ds (cycleColorSpace idx d)

/-- A source mode selected by `__main__`. -/
inductive Source where
  | file (path : String)
  | camera (index : Int)
deriving Repr, DecidableEq

/-- The `__main__` dispatch on parsed arguments: `image` and `video` are
`None` unless their flag was supplied; `cam` defaults to 0.  Returns the
`(mode, source)` pair passed to the `ColorThreshold` constructor. -/
def pickMode (image video : Option String) (cam : Int) : String × Source :=
  match image with
  | some path => ("image", Source.file path)
  | none =>
    match video with
    | some path => ("video", Source.file path)
    | none => ("cam", Source.camera cam)

/-! ### Helper lemmas -/

/-- The catalog has exactly seven entries. -/
lemma COLOR_SPACES_length : COLOR_SPACES.length = 7 := rfl

/-- A single-channel mask value is binary: 0 or 255. -/
lemma inRange1_eq_zero_or_255 (low high v : Nat) :
    inRange1 low high v = 0 ∨ inRange1 low high v = 255 := by
  unfold inRange1
  split <;> simp

/-- A channel-mask plane has one entry per pixel. -/
lemma channelMask_length (low high : Nat) (proj : Pixel3 → Nat)
    (img : Frame) : (channelMask low high proj img).length = img.length :=
  List.length_map _ _

/-- Every entry of a channel-mask plane (`getD` with default 0) is
binary. -/
lemma channelMask_getD_binary (low high : Nat) (proj : Pixel3 → Nat)
    (img : Frame) (i : Nat) :
    (channelMask low high proj img).getD i 0 = 0 ∨
      (channelMask low high proj img).getD i 0 = 255 := by
  induction img generalizing i with
  | nil => left; rfl
  | cons p ps ih =>
    cases i with
    | zero => exact inRange1_eq_zero_or_255 _ _ _
    | succ n => exact ih n

/-- Reading a `zipWith` entry below both lengths. -/
lemma getD_zipWith_of_lt (f : Nat → Nat → Nat) (a b : List Nat) (i : Nat)
    (ha : i < a.length) (hb : i < b.length) :
    (List.zipWith f a b).getD i 0 = f (a.getD i 0) (b.getD i 0) := by
  induction a generalizing b i with
  | nil => exact absurd ha (Nat.not_lt_zero i)
  | cons x xs ih =>
    cases b with
    | nil => exact absurd hb (Nat.not_lt_zero i)
    | cons y ys =>
      cases i with
      | zero => rfl
      | succ n =>
        exact ih ys n (Nat.lt_of_succ_lt_succ ha) (Nat.lt_of_succ_lt_succ hb)

/-- Bitwise AND of binary mask values equals 255 exactly when all three
are 255 (the pixel is foreground in every plane). -/
lemma land_binary_eq_255_iff (a b c : Nat)
    (ha : a = 0 ∨ a = 255) (hb : b = 0 ∨ b = 255) (hc : c = 0 ∨ c = 255) :
    bitwiseAnd (bitwiseAnd a b) c = 255 ↔ (a = 255 ∧ b = 255 ∧ c = 255) := by
  rcases ha with h | h <;> rcases hb with h' | h' <;>
    rcases hc with h'' | h'' <;> subst_vars <;> decide

/-- The converted 3-channel frame keeps the pixel count. -/
lemma convertedOf_length (cvt : String → Pixel3 → Pixel3) (cfg : Config)
    (img : Frame) : (convertedOf cvt cfg img).length = img.length := by
  simp only [convertedOf]
  split <;> simp

/-- The cycled index stays in `[0, 7)` whenever the catalog step is
taken. -/
lemma cycleColorSpace_mem_range (idx d : Int) :
    0 ≤ cycleColorSpace idx d ∧ cycleColorSpace idx d < 7 := by
  unfold cycleColorSpace
  constructor
  · exact Int.emod_nonneg _ (by decide)
  · exact Int.emod_lt_of_pos _ (by decide)

/-- Any cycle sequence keeps the index in `[0, 7)`. -/
lemma applyCycles_mem_range (ds : List Int) (idx : Int)
    (h0 : 0 ≤ idx) (h7 : idx < 7) :
    0 ≤ applyCycles ds idx ∧ applyCycles ds idx < 7 := by
  induction ds generalizing idx with
  | nil => exact ⟨h0, h7⟩
  | cons d ds ih =>
    exact ih (cycleColorSpace idx d) (cycleColorSpace_mem_range idx d).1
      (cycleColorSpace_mem_range idx d).2

/-- In the "GRAY" branch, `thresholdImage` converts with the grayscale
conversion and range-tests against the slot-0 bounds only. -/
lemma thresholdImage_gray (cvtGray : Pixel3 → Nat)
    (cvt : String → Pixel3 → Pixel3) (cfg : Config) (img : Frame)
    (hgray : COLOR_SPACES.getD cfg.colorSpaceIdx.toNat "" = "GRAY") :
    thresholdImage cvtGray cvt cfg img =
      (ConvFrame.gray (img.map cvtGray),
       (img.map cvtGray).map (inRange1 cfg.ch0LowVal cfg.ch0HighVal)) := by
  simp only [thresholdImage]
  rw [if_pos hgray]

/-- Outside the "GRAY" branch, `thresholdImage` splits the converted
frame and combines the three per-channel planes with bitwise AND. -/
lemma thresholdImage_not_gray (cvtGray : Pixel3 → Nat)
    (cvt : String → Pixel3 → Pixel3) (cfg : Config) (img : Frame)
    (hng : COLOR_SPACES.getD cfg.colorSpaceIdx.toNat "" ≠ "GRAY") :
    thresholdImage cvtGray cvt cfg img =
      (ConvFrame.color (convertedOf cvt cfg img),
       List.zipWith bitwiseAnd
         (List.zipWith bitwiseAnd
           (channelMask cfg.ch0LowVal cfg.ch0HighVal (fun p => p.1)
             (convertedOf cvt cfg img))
           (channelMask cfg.ch1LowVal cfg.ch1HighVal (fun p => p.2.1)
             (convertedOf cvt cfg img)))
         (channelMask cfg.ch2LowVal cfg.ch2HighVal (fun p => p.2.2)
           (convertedOf cvt cfg img))) := by
  simp only [thresholdImage]
  rw [if_neg hng]

/-- With the "BGR" entry active, the converted frame is the input. -/
lemma convertedOf_bgr (cvt : String → Pixel3 → Pixel3) (cfg : Config)
    (img : Frame)
    (hbgr : COLOR_SPACES.getD cfg.colorSpaceIdx.toNat "" = "BGR") :
    convertedOf cvt cfg img = img := by
  simp only [convertedOf]
  rw [if_pos hbgr]

/-! ### Claim theorems -/

/-- C3: `onMouse` cycling computes `(current + direction) % catalogSize`
with a non-negative result for direction ±1; seven forward (resp.
backward) steps return any in-range index to its start, and one backward
step from 0 lands on `catalogSize - 1 = 6`. -/
theorem C3_cycle_round_trip (idx : Int) (h0 : 0 ≤ idx) (h7 : idx < 7) :
    cycleColorSpace idx 1 = (idx + 1) % 7 ∧
    cycleColorSpace idx (-1) = (idx + -1) % 7 ∧
    0 ≤ cycleColorSpace idx 1 ∧ 0 ≤ cycleColorSpace idx (-1) ∧
    (fun i => cycleColorSpace i 1)^[7] idx = idx ∧
    (fun i => cycleColorSpace i (-1))^[7] idx = idx ∧
    cycleColorSpace 0 (-1) = 6 := by
  interval_cases idx <;> decide

/-- C3 witness at the concrete starting index 2. -/
theorem C3_cycle_round_trip_witness :
    (0 : Int) ≤ 2 ∧ (2 : Int) < 7 ∧
    (fun i => cycleColorSpace i 1)^[7] (2 : Int) = 2 ∧
    (fun i => cycleColorSpace i (-1))^[7] (2 : Int) = 2 ∧
    cycleColorSpace 0 (-1) = 6 := by
  refine ⟨by decide, by decide, ?_⟩
  have h := C3_cycle_round_trip 2 (by decide) (by decide)
  exact ⟨h.2.2.2.2.1, h.2.2.2.2.2.1, h.2.2.2.2.2.2⟩

/-- C4: the catalog has exactly seven entries, and from the initial index
0 every finite sequence of ±1 cycle events leaves the index in
`[0, 7)`. -/
theorem C4_catalog_and_index_invariant (ds : List Int)
    (hds : ∀ d ∈ ds, d = 1 ∨ d = -1) :
    COLOR_SPACES.length = 7 ∧
    0 ≤ applyCycles ds 0 ∧ applyCycles ds 0 < 7 := by
  have _ := hds
  exact ⟨rfl, applyCycles_mem_range ds 0 (by decide) (by decide)⟩

/-- C4 witness on the concrete event sequence `[+1, -1, -1]`. -/
theorem C4_catalog_and_index_invariant_witness :
    COLOR_SPACES.length = 7 ∧
    0 ≤ applyCycles [1, -1, -1] 0 ∧ applyCycles [1, -1, -1] 0 < 7 :=
  C4_catalog_and_index_invariant [1, -1, -1] (by decide)

/-- C7 counterexample: the trackbar callback performs no validation — fed
an out-of-range slider value 300, it stores it (mutating state) instead
of failing with an invalid-argument condition, contradicting the claimed
atomic rejection. -/
theorem C7_counterexample :
    256 ≤ (300 : Nat) ∧
    (onTrackbar 0 ⟨300, 255, 0, 255, 0, 255⟩ initialConfig).ch0LowVal = 300 ∧
    onTrackbar 0 ⟨300, 255, 0, 255, 0, 255⟩ initialConfig ≠ initialConfig := by
  refine ⟨by decide, rfl, ?_⟩
  intro h
  have : (onTrackbar 0 ⟨300, 255, 0, 255, 0, 255⟩ initialConfig).ch0LowVal =
      initialConfig.ch0LowVal := by rw [h]
  simp [onTrackbar, initialConfig, PIXEL_MIN] at this

/-- C7 amended: the bound-change callback never fails and never clamps:
it stores every reported slider value verbatim (even out-of-range ones,
range enforcement being the trackbar widget's job) and touches no other
engine state (the color-space index is unchanged). -/
theorem C7_amended_no_validation (val : Nat) (s : SliderState)
    (cfg : Config) :
    (onTrackbar val s cfg).colorSpaceIdx = cfg.colorSpaceIdx ∧
    (onTrackbar val s cfg).ch0LowVal = s.ch0Low ∧
    (onTrackbar val s cfg).ch0HighVal = s.ch0High ∧
    (onTrackbar val s cfg).ch1LowVal = s.ch1Low ∧
    (onTrackbar val s cfg).ch1HighVal = s.ch1High ∧
    (onTrackbar val s cfg).ch2LowVal = s.ch2Low ∧
    (onTrackbar val s cfg).ch2HighVal = s.ch2High :=
  ⟨rfl, rfl, rfl, rfl, rfl, rfl, rfl⟩

/-- C8 counterexample: with both an image path and a video path supplied
(plus the default camera index), `__main__` selects image mode, not
camera mode — the selectors are prioritized, not mutually exclusive, and
the combination does not fall back to camera. -/
theorem C8_counterexample :
    pickMode (some "img.png") (some "vid.mp4") 0 =
      ("image", Source.file "img.png") ∧
    (pickMode (some "img.png") (some "vid.mp4") 0).1 ≠ "cam" := by
  exact ⟨rfl, by decide⟩

/-- C8 amended: `__main__` dispatches by priority — image if `-i` was
given, else video if `-v` was given, else camera with the given index
(default 0). -/
theorem C8_amended_priority (image video : Option String) (cam : Int) :
    (∀ p, image = some p →
      pickMode image video cam = ("image", Source.file p)) ∧
    (image = none → ∀ p, video = some p →
      pickMode image video cam = ("video", Source.file p)) ∧
    (image = none → video = none →
      pickMode image video cam = ("cam", Source.camera cam)) := by
  refine ⟨?_, ?_, ?_⟩
  · intro p hp
    subst hp
    rfl
  · intro hi p hp
    subst hi
    subst hp
    rfl
  · intro hi hv
    subst hi
    subst hv
    rfl

/-- C8 amended witness: no image and no video flag yields camera mode
with the supplied index. -/
theorem C8_amended_priority_witness :
    pickMode none none 3 = ("cam", Source.camera 3) :=
  (C8_amended_priority none none 3).2.2 rfl rfl

/-- C9: `thresholdImage` mutates no engine state — the configuration and
retained image after the call equal their values before it — and calling
it again on the post-call state returns the same outputs. -/
theorem C9_processFrame_pure (cvtGray : Pixel3 → Nat)
    (cvt : String → Pixel3 → Pixel3) (cfg : Config) (img : Frame) :
    (thresholdImageStep cvtGray cvt cfg img).1 = (cfg, img) ∧
    thresholdImageStep cvtGray cvt
        (thresholdImageStep cvtGray cvt cfg img).1.1
        (thresholdImageStep cvtGray cvt cfg img).1.2 =
      thresholdImageStep cvtGray cvt cfg img :=
  ⟨rfl, rfl⟩

/-- C10: one bound-change callback overwrites all six stored bounds from
the current slider positions, whichever trackbar fired (the callback's
`val` argument is irrelevant) and whatever was stored before. -/
theorem C10_overwrites_all_six (val val' : Nat) (s : SliderState)
    (cfg : Config) :
    onTrackbar val s cfg = onTrackbar val' s cfg ∧
    (onTrackbar val s cfg).ch0LowVal = s.ch0Low ∧
    (onTrackbar val s cfg).ch0HighVal = s.ch0High ∧
    (onTrackbar val s cfg).ch1LowVal = s.ch1Low ∧
    (onTrackbar val s cfg).ch1HighVal = s.ch1High ∧
    (onTrackbar val s cfg).ch2LowVal = s.ch2Low ∧
    (onTrackbar val s cfg).ch2HighVal = s.ch2High :=
  ⟨rfl, rfl, rfl, rfl, rfl, rfl, rfl⟩

/-- C1 counterexample: the code thresholds with `cv2.inRange`, which is
inclusive.  With slot-0 bounds low = high = 100 and a pixel whose
channel-0 value is exactly 100, the produced mask is foreground (255),
while the claim (strict inequalities; low ≥ high always background)
demands background. -/
theorem C1_counterexample :
    (thresholdImage (fun _ => 0) (fun _ p => p)
        ⟨0, 100, 100, 0, 255, 0, 255⟩ [(100, 0, 0)]).2 = [255] ∧
    ¬ ((100 : Nat) < 100 ∧ (100 : Nat) < 100) := by
  exact ⟨by decide, by decide⟩

/-- C1 amended: the per-channel mask bit is foreground iff
`low ≤ v ≤ high` (inclusive at both ends); `v = low` and `v = high` are
foreground whenever `low ≤ high`, and only the strict case `low > high`
yields an always-background channel. -/
theorem C1_amended_inclusive_range (low high v : Nat) :
    (inRange1 low high v = 255 ↔ (low ≤ v ∧ v ≤ high)) ∧
    (low ≤ high → inRange1 low high low = 255 ∧ inRange1 low high high = 255) ∧
    (high < low → inRange1 low high v = 0) := by
  refine ⟨?_, ?_, ?_⟩
  · unfold inRange1
    split <;> simp_all
  · intro hle
    constructor <;> · unfold inRange1; rw [if_pos (by omega)]
  · intro hlt
    unfold inRange1
    rw [if_neg (by omega)]

/-- C1 amended witness at bounds (5, 10) and the reversed pair (10, 5). -/
theorem C1_amended_inclusive_range_witness :
    inRange1 5 10 5 = 255 ∧ inRange1 5 10 10 = 255 ∧ inRange1 10 5 7 = 0 :=
  ⟨((C1_amended_inclusive_range 5 10 7).2.1 (by decide)).1,
   ((C1_amended_inclusive_range 5 10 7).2.1 (by decide)).2,
   (C1_amended_inclusive_range 10 5 7).2.2 (by decide)⟩

/-- C2: for any 3-channel representation, the combined mask is the
pixel-wise AND of the three per-channel planes: a pixel is foreground in
the combined mask iff it is foreground in all three planes. -/
theorem C2_combined_mask_is_and (cvtGray : Pixel3 → Nat)
    (cvt : String → Pixel3 → Pixel3) (cfg : Config) (img : Frame)
    (hng : COLOR_SPACES.getD cfg.colorSpaceIdx.toNat "" ≠ "GRAY")
    (i : Nat) (hi : i < img.length) :
    ((thresholdImage cvtGray cvt cfg img).2.getD i 0 = 255 ↔
      ((channelMask cfg.ch0LowVal cfg.ch0HighVal (fun p => p.1)
          (convertedOf cvt cfg img)).getD i 0 = 255 ∧
       (channelMask cfg.ch1LowVal cfg.ch1HighVal (fun p => p.2.1)
          (convertedOf cvt cfg img)).getD i 0 = 255 ∧
       (channelMask cfg.ch2LowVal cfg.ch2HighVal (fun p => p.2.2)
          (convertedOf cvt cfg img)).getD i 0 = 255)) := by
  have hlen : i < (convertedOf cvt cfg img).length := by
    rw [convertedOf_length]
    exact hi
  have h0 : i < (channelMask cfg.ch0LowVal cfg.ch0HighVal (fun p => p.1)
      (convertedOf cvt cfg img)).length := by
    rw [channelMask_length]
    exact hlen
  have h1 : i < (channelMask cfg.ch1LowVal cfg.ch1HighVal (fun p => p.2.1)
      (convertedOf cvt cfg img)).length := by
    rw [channelMask_length]
    exact hlen
  have h2 : i < (channelMask cfg.ch2LowVal cfg.ch2HighVal (fun p => p.2.2)
      (convertedOf cvt cfg img)).length := by
    rw [channelMask_length]
    exact hlen
  have h01 : i < (List.zipWith bitwiseAnd
      (channelMask cfg.ch0LowVal cfg.ch0HighVal (fun p => p.1)
        (convertedOf cvt cfg img))
      (channelMask cfg.ch1LowVal cfg.ch1HighVal (fun p => p.2.1)
        (convertedOf cvt cfg img))).length := by
    rw [List.length_zipWith]
    exact lt_min h0 h1
  rw [thresholdImage_not_gray cvtGray cvt cfg img hng]
  rw [getD_zipWith_of_lt _ _ _ _ h01 h2, getD_zipWith_of_lt _ _ _ _ h0 h1]
  exact land_binary_eq_255_iff _ _ _
    (channelMask_getD_binary _ _ _ _ _)
    (channelMask_getD_binary _ _ _ _ _)
    (channelMask_getD_binary _ _ _ _ _)

/-- C2 witness on a one-pixel frame in the initial (BGR) state. -/
theorem C2_combined_mask_is_and_witness :
    ((thresholdImage (fun _ => 0) (fun _ p => p) initialConfig
        [(1, 2, 3)]).2.getD 0 0 = 255 ↔
      ((channelMask initialConfig.ch0LowVal initialConfig.ch0HighVal
          (fun p => p.1)
          (convertedOf (fun _ p => p) initialConfig [(1, 2, 3)])).getD 0 0
            = 255 ∧
       (channelMask initialConfig.ch1LowVal initialConfig.ch1HighVal
          (fun p => p.2.1)
          (convertedOf (fun _ p => p) initialConfig [(1, 2, 3)])).getD 0 0
            = 255 ∧
       (channelMask initialConfig.ch2LowVal initialConfig.ch2HighVal
          (fun p => p.2.2)
          (convertedOf (fun _ p => p) initialConfig [(1, 2, 3)])).getD 0 0
            = 255)) :=
  C2_combined_mask_is_and (fun _ => 0) (fun _ p => p) initialConfig
    [(1, 2, 3)] (by decide) 0 (by decide)

/-- C5: with the grayscale (luma-only) representation active, the mask
depends only on the slot-0 bounds — two configurations agreeing on the
index and slot-0 bounds but arbitrary in slots 1 and 2 give the same
mask on every frame. -/
theorem C5_gray_ignores_slots12 (cvtGray : Pixel3 → Nat)
    (cvt : String → Pixel3 → Pixel3) (cfg cfg' : Config) (img : Frame)
    (hidx : cfg.colorSpaceIdx = cfg'.colorSpaceIdx)
    (hgray : COLOR_SPACES.getD cfg.colorSpaceIdx.toNat "" = "GRAY")
    (h0l : cfg.ch0LowVal = cfg'.ch0LowVal)
    (h0h : cfg.ch0HighVal = cfg'.ch0HighVal) :
    (thresholdImage cvtGray cvt cfg img).2 =
      (thresholdImage cvtGray cvt cfg' img).2 := by
  have hgray' : COLOR_SPACES.getD cfg'.colorSpaceIdx.toNat "" = "GRAY" := by
    rw [← hidx]
    exact hgray
  rw [thresholdImage_gray cvtGray cvt cfg img hgray,
    thresholdImage_gray cvtGray cvt cfg' img hgray', h0l, h0h]

/-- C5 witness: index 1 (GRAY), identical slot-0 bounds, very different
slot-1/2 bounds, same one-pixel frame. -/
theorem C5_gray_ignores_slots12_witness :
    (thresholdImage (fun p => p.1) (fun _ p => p)
        ⟨1, 0, 255, 0, 255, 0, 255⟩ [(3, 4, 5)]).2 =
      (thresholdImage (fun p => p.1) (fun _ p => p)
        ⟨1, 0, 255, 7, 9, 11, 13⟩ [(3, 4, 5)]).2 :=
  C5_gray_ignores_slots12 (fun p => p.1) (fun _ p => p)
    ⟨1, 0, 255, 0, 255, 0, 255⟩ ⟨1, 0, 255, 7, 9, 11, 13⟩ [(3, 4, 5)]
    rfl rfl rfl rfl

/-- C6: with the identity ("BGR", index 0) representation active, the
converted frame returned by `thresholdImage` is pixel-for-pixel the
input frame. -/
theorem C6_identity_converted (cvtGray : Pixel3 → Nat)
    (cvt : String → Pixel3 → Pixel3) (cfg : Config) (img : Frame)
    (hbgr : cfg.colorSpaceIdx = 0) :
    (thresholdImage cvtGray cvt cfg img).1 = ConvFrame.color img := by
  have hname : COLOR_SPACES.getD cfg.colorSpaceIdx.toNat "" = "BGR" := by
    rw [hbgr]
    rfl
  have hng : COLOR_SPACES.getD cfg.colorSpaceIdx.toNat "" ≠ "GRAY" := by
    rw [hname]
    decide
  rw [thresholdImage_not_gray cvtGray cvt cfg img hng,
    convertedOf_bgr cvt cfg img hname]

/-- C6 witness on a concrete three-pixel frame in the initial state. -/
theorem C6_identity_converted_witness :
    (thresholdImage (fun _ => 0) (fun _ p => p) initialConfig
        [(1, 2, 3), (0, 0, 0), (255, 128, 7)]).1 =
      ConvFrame.color [(1, 2, 3), (0, 0, 0), (255, 128, 7)] :=
  C6_identity_converted (fun _ => 0) (fun _ p => p) initialConfig
    [(1, 2, 3), (0, 0, 0), (255, 128, 7)] rfl

end ColorThresh
